import Mathlib

/-!
Verification of the probe-orchestration and protocol-verdict core of the
web-security-audit tool, as a shallow embedding in Lean 4.

The embedding follows the Python sources:
  * `src/auditors/data_models.py`   (AuditStatus, AuditResult, BatchAuditResult, TargetSite)
  * `src/auditors/base_auditor.py`  (execute_audit, determine_status)
  * `src/auditors/tls_security.py`  (_check_tls_versions)
  * `src/core/audit_engine.py`      (audit_single_site, audit_batch)
  * `src/core/compliance_evaluator.py` (ComplianceEvaluator)
  * `src/core/output_generator.py`  (compliance CSV row totals)

Conventions of the embedding:
  * Python dict/list/str/int payloads ("details") are modelled by the `PyVal`
    inductive; dict access `d.get(k, default)` becomes `PyVal.getD`.
  * Wall-clock readings (`time.time()`, `datetime.now()`) are abstracted:
    a measured duration enters a definition as an explicit rational parameter.
  * Network I/O is abstracted as an oracle: a handshake attempt is a pure
    function argument, so the TLS prober is a function of the oracle.
  * Python exceptions become `Except`; a caught exception is a matched
    `.error` branch.
-/

namespace WebAudit

/-- Python value model for the heterogeneous `details` payloads
(`Dict[str, Any]` in the source). -/
inductive PyVal where
  | str : String → PyVal
  | int : Int → PyVal
  | bool : Bool → PyVal
  | dict : List (String × PyVal) → PyVal
  | list : List PyVal → PyVal
  | none : PyVal
deriving Repr

/-- Python `d.get(k, default)` on a dict value; non-dict receivers yield the
default (the evaluators only call it on dict-shaped payloads). -/
def PyVal.getD (v : PyVal) (k : String) (default : PyVal) : PyVal :=
  match v with
  | .dict d =>
    match d.find? (fun p => p.1 == k) with
    | some p => p.2
    | Option.none => default
  | _ => default

/-- Python truthiness (`if x:`). -/
def PyVal.truthy : PyVal → Bool
  | .none => false
  | .bool b => b
  | .int n => n != 0
  | .str s => s != ""
  | .dict d => !d.isEmpty
  | .list l => !l.isEmpty

/-- Python `x == n` against an int literal, with bool-as-int semantics. -/
def PyVal.eqInt (v : PyVal) (n : Int) : Bool :=
  match v with
  | .int m => m == n
  | .bool b => (if b then (1 : Int) else 0) == n
  | _ => false

/-- Python `str(x)` as used by the f-strings of the evaluators. -/
def PyVal.fstr : PyVal → String
  | .str s => s
  | .int n => toString n
  | .bool b => if b then "True" else "False"
  | _ => ""

/-- The string payload of a `.str` value (the evaluators apply `.lower()` and
substring tests only to string payloads). -/
def PyVal.asStr : PyVal → String
  | .str s => s
  | _ => ""

/-- The list payload of a `.list` value. -/
def PyVal.asList : PyVal → List PyVal
  | .list l => l
  | _ => []

/-- Python `pat in s` substring test. -/
def py_contains (s pat : String) : Bool :=
  (s.splitOn pat).length != 1

/-- `AuditStatus` enum of `data_models.py`. -/
inductive AuditStatus where
  | OK
  | NG
  | WARNING
  | ERROR
deriving DecidableEq, Repr

/-- The enum value-lookup `AuditStatus(value)`: returns the member whose value
equals the string, or nothing (Python raises `ValueError`). -/
def AuditStatus.fromValue (s : String) : Option AuditStatus :=
  if s = "OK" then some .OK
  else if s = "NG" then some .NG
  else if s = "WARNING" then some .WARNING
  else if s = "ERROR" then some .ERROR
  else Option.none

/-- `AuditResult.__post_init__` status coercion: a string status is converted
through `AuditStatus(value)`, and a failed conversion (`ValueError`) is
replaced by `AuditStatus.ERROR`. -/
def post_init_status (s : String) : AuditStatus :=
  match AuditStatus.fromValue s with
  | some st => st
  | Option.none => .ERROR

/-- `AuditResult` dataclass of `data_models.py`. The `timestamp` field
(`datetime.now()`) is abstracted away; `execution_time` is a rational. -/
structure AuditResult where
  audit_type : String
  url : String
  status : AuditStatus
  details : List (String × PyVal) := []
  recommendations : List String := []
  execution_time : ℚ := 0
  error_message : Option String := Option.none
deriving Repr

/-- `AuditResult.is_success`: `self.status in [AuditStatus.OK, AuditStatus.WARNING]`. -/
def AuditResult.is_success (r : AuditResult) : Bool :=
  [AuditStatus.OK, AuditStatus.WARNING].contains r.status

/-- `TargetSite` dataclass (priority kept as its raw string form; the
priority/site-name normalisation of `__post_init__` is not claim-relevant). -/
structure TargetSite where
  url : String
  site_name : String := ""
  priority : String := "中"
  notes : String := ""
deriving Repr

/-- `BatchAuditResult` dataclass. `start_time`/`end_time` (`datetime`) are
abstracted away; the counter fields are embedded exactly. -/
structure BatchAuditResult where
  results : List AuditResult := []
  total_sites : ℕ := 0
  successful_audits : ℕ := 0
  failed_audits : ℕ := 0
deriving Repr

/-- `BatchAuditResult.add_result`: append the result and bump exactly one of
the two counters according to `is_success`. -/
def BatchAuditResult.add_result (b : BatchAuditResult) (r : AuditResult) : BatchAuditResult :=
  { b with
    results := b.results ++ [r]
    successful_audits := if r.is_success then b.successful_audits + 1 else b.successful_audits
    failed_audits := if r.is_success then b.failed_audits else b.failed_audits + 1 }

/-- `BaseAuditor.determine_status` of `base_auditor.py`.  Python's
`failed_checks <= total_checks / 3` is float division of two machine
integers; for the dict sizes reachable here (far below `2^50`) the correctly
rounded float comparison coincides with the exact rational comparison used
here. -/
def determine_status (checks : List (String × Bool)) (has_critical_issues : Bool) : AuditStatus :=
  if has_critical_issues then AuditStatus.NG
  else if checks.all (fun c => c.2) then AuditStatus.OK
  else
    let failed_checks := (checks.filter (fun c => !c.2)).length
    let total_checks := checks.length
    if failed_checks = 0 then AuditStatus.OK
    else if (failed_checks : ℚ) ≤ (total_checks : ℚ) / 3 then AuditStatus.WARNING
    else AuditStatus.NG

/-- Number of failed checks, as the spec counts them. -/
def failed_count (checks : List (String × Bool)) : ℕ :=
  (checks.filter (fun c => !c.2)).length

lemma all_iff_failed_count_zero (checks : List (String × Bool)) :
    checks.all (fun c => c.2) = true ↔ failed_count checks = 0 := by
  simp [failed_count, List.all_eq_true, List.length_eq_zero, List.filter_eq_nil_iff]

lemma length_pos_of_not_all (checks : List (String × Bool))
    (h : ¬ checks.all (fun c => c.2) = true) : 0 < checks.length := by
  cases checks with
  | nil => simp at h
  | cons a l => simp

lemma ratio_iff (f t : ℕ) (ht : 0 < t) :
    ((f : ℚ) ≤ (t : ℚ) / 3) ↔ ((f : ℚ) / (t : ℚ) ≤ 1 / 3) := by
  have ht' : (0 : ℚ) < (t : ℚ) := by exact_mod_cast ht
  have h3 : (0 : ℚ) < 3 := by norm_num
  rw [le_div_iff₀ h3, div_le_div_iff₀ ht' h3, one_mul]

/-- C1: the verdict classifier returns NG when the critical flag is set (even
with every check passing), OK when all checks pass (including the empty check
map), and otherwise WARNING when failed/total ≤ 1/3 and NG when the fraction
exceeds 1/3; in particular 2 checks with 1 failure give NG and 3 checks with
1 failure give WARNING. -/
theorem determine_status_matches_spec (checks : List (String × Bool)) (critical : Bool) :
    determine_status checks critical =
      (if critical then AuditStatus.NG
       else if failed_count checks = 0 then AuditStatus.OK
       else if (failed_count checks : ℚ) / (checks.length : ℚ) ≤ 1 / 3 then AuditStatus.WARNING
       else AuditStatus.NG)
    ∧ determine_status [] false = AuditStatus.OK
    ∧ determine_status [("a", true)] true = AuditStatus.NG
    ∧ determine_status [("a", true), ("b", false)] false = AuditStatus.NG
    ∧ determine_status [("a", true), ("b", false), ("c", true)] false = AuditStatus.WARNING := by
  refine ⟨?_, by norm_num [determine_status], by norm_num [determine_status],
    by norm_num [determine_status], by norm_num [determine_status]⟩
  by_cases hc : critical = true
  · simp [determine_status, hc]
  · have hc' : critical = false := by revert hc; cases critical <;> simp
    subst hc'
    by_cases hall : checks.all (fun c => c.2) = true
    · have h0 : failed_count checks = 0 := (all_iff_failed_count_zero checks).mp hall
      simp [determine_status, hall, h0]
    · have h0 : ¬ failed_count checks = 0 := by
        intro h; exact hall ((all_iff_failed_count_zero checks).mpr h)
      have hlen : 0 < checks.length := length_pos_of_not_all checks hall
      have hiff := ratio_iff (failed_count checks) checks.length hlen
      simp only [determine_status, failed_count] at hiff h0 ⊢
      rw [if_neg Bool.false_ne_true, if_neg Bool.false_ne_true, if_neg hall,
        if_neg h0, if_neg h0]
      by_cases hle : ((checks.filter (fun c => !c.2)).length : ℚ) ≤ (checks.length : ℚ) / 3
      · rw [if_pos hle, if_pos (hiff.mp hle)]
      · rw [if_neg hle, if_neg (fun h => hle (hiff.mpr h))]

/-- C10: constructing an `AuditResult` with a string status never fails: each
of the four enumerated value strings maps to its verdict, and every other
string maps to `ERROR`. -/
theorem post_init_status_total (s : String) :
    post_init_status "OK" = AuditStatus.OK
    ∧ post_init_status "NG" = AuditStatus.NG
    ∧ post_init_status "WARNING" = AuditStatus.WARNING
    ∧ post_init_status "ERROR" = AuditStatus.ERROR
    ∧ (s ≠ "OK" → s ≠ "NG" → s ≠ "WARNING" → s ≠ "ERROR" →
        post_init_status s = AuditStatus.ERROR) := by
  refine ⟨rfl, rfl, rfl, rfl, ?_⟩
  intro h1 h2 h3 h4
  simp [post_init_status, AuditStatus.fromValue, h1, h2, h3, h4]

/-- Witness for C10 at the concrete non-enumerated string "BOGUS". -/
theorem post_init_status_total_witness :
    post_init_status "BOGUS" = AuditStatus.ERROR :=
  (post_init_status_total "BOGUS").2.2.2.2 (by decide) (by decide) (by decide) (by decide)

/-! ## Probe execution wrapper (`BaseAuditor.execute_audit`) -/

/-- Fault taxonomy of the wrapper's two `except` clauses: `ValidationError`
is caught separately from every other exception. -/
inductive Fault where
  | validation : String → Fault
  | other : String → Fault
deriving DecidableEq, Repr

/-- The `str(e)` text of a fault. -/
def Fault.text : Fault → String
  | .validation m => m
  | .other m => m

/-- The body of the `try` block of `execute_audit`: first
`URLValidator.validate_url(url)`, then `self.audit(url)`.  Both the validator
and the abstract probe body (`audit` is an abstract method implemented by each
subclass) are oracle parameters; either may raise. -/
def run_audit_body (validate : String → Except Fault Bool)
    (audit : String → Except Fault AuditResult) (url : String) :
    Except Fault AuditResult :=
  match validate url with
  | .error f => .error f
  | .ok _ => audit url

/-- `BaseAuditor.execute_audit`: the uniform wrapper.  The measured duration
`time.time() - start_time` is abstracted as the parameter `elapsed`.  On
success the measured duration is written onto the probe's result; a
`ValidationError` or any other exception is converted into an `ERROR` result
carrying the fault text, with the duration recorded as well. -/
def execute_audit (validate : String → Except Fault Bool)
    (audit : String → Except Fault AuditResult)
    (audit_type : String) (elapsed : ℚ) (url : String) : AuditResult :=
  match run_audit_body validate audit url with
  | .ok result => { result with execution_time := elapsed }
  | .error (.validation e) =>
    { audit_type := audit_type
      url := url
      status := AuditStatus.ERROR
      execution_time := elapsed
      error_message := some ("Validation error: " ++ e) }
  | .error (.other e) =>
    { audit_type := audit_type
      url := url
      status := AuditStatus.ERROR
      execution_time := elapsed
      error_message := some ("Unexpected error: " ++ e) }

/-- The fixed text prepended to the fault text by each `except` clause. -/
def Fault.tag : Fault → String
  | .validation _ => "Validation error: "
  | .other _ => "Unexpected error: "

/-- C6: the wrapper never propagates a fault.  The execution time is recorded
on the returned result in every case; a fault raised by URL validation or by
the wrapped probe body yields an `ERROR` result whose error message contains
the fault text; a successful probe returns the probe's own result with the
measured time written in. -/
theorem execute_audit_normalizes_faults (validate : String → Except Fault Bool)
    (audit : String → Except Fault AuditResult)
    (audit_type : String) (elapsed : ℚ) (url : String) :
    (execute_audit validate audit audit_type elapsed url).execution_time = elapsed
    ∧ (∀ f, run_audit_body validate audit url = .error f →
        (execute_audit validate audit audit_type elapsed url).status = AuditStatus.ERROR
        ∧ (execute_audit validate audit audit_type elapsed url).error_message
            = some (f.tag ++ f.text)
        ∧ ∃ s, (execute_audit validate audit audit_type elapsed url).error_message
            = some (s ++ f.text))
    ∧ (∀ r, run_audit_body validate audit url = .ok r →
        execute_audit validate audit audit_type elapsed url
          = { r with execution_time := elapsed }) := by
  refine ⟨?_, ?_, ?_⟩
  · unfold execute_audit
    cases h : run_audit_body validate audit url with
    | ok r => simp
    | error f => cases f <;> simp
  · intro f hf
    unfold execute_audit
    rw [hf]
    cases f with
    | validation m => exact ⟨rfl, rfl, ⟨"Validation error: ", rfl⟩⟩
    | other m => exact ⟨rfl, rfl, ⟨"Unexpected error: ", rfl⟩⟩
  · intro r hr
    unfold execute_audit
    rw [hr]

/-- Witness for C6: a probe body that raises is converted to an `ERROR`
result with the fault text in the message and the elapsed time recorded. -/
theorem execute_audit_normalizes_faults_witness :
    (execute_audit (fun _ => .ok true) (fun _ => .error (Fault.other "boom"))
        "tls_security" 2 "https://example.test").execution_time = 2
    ∧ (execute_audit (fun _ => .ok true) (fun _ => .error (Fault.other "boom"))
        "tls_security" 2 "https://example.test").status = AuditStatus.ERROR
    ∧ (execute_audit (fun _ => .ok true) (fun _ => .error (Fault.other "boom"))
        "tls_security" 2 "https://example.test").error_message
        = some ("Unexpected error: " ++ "boom") := by
  have h := execute_audit_normalizes_faults (fun _ => .ok true)
    (fun _ => .error (Fault.other "boom")) "tls_security" 2 "https://example.test"
  have he := h.2.1 (Fault.other "boom") rfl
  exact ⟨h.1, he.1, he.2.1⟩

/-! ## Batch coordinator (`AuditEngine`) -/

/-- `AuditEngine.audit_single_site`: run each enabled auditor name in order,
skipping (with a warning) any name missing from the static
`auditor_classes` registry.  The per-auditor execution
(`auditor.execute_audit(url)`) is the oracle parameter `run`; its result is
total because `execute_audit` normalizes faults (C6). -/
def audit_single_site (auditor_classes : List String) (enabled_auditors : List String)
    (run : String → String → AuditResult) (target_site : TargetSite) : List AuditResult :=
  enabled_auditors.filterMap (fun name =>
    if auditor_classes.contains name then some (run name target_site.url) else Option.none)

/-- Reorder per-site result lists by a completion order (`as_completed` in
`_execute_parallel`); sequential mode keeps submission order. -/
def completion_reorder (order : List ℕ) (lists : List (List AuditResult)) :
    List (List AuditResult) :=
  order.filterMap (fun i => lists.get? i)

/-- `AuditEngine.audit_batch`: create the batch accumulator with
`total_sites` set up front, run all sites (sequentially when
`max_workers = 1`, otherwise via the pool, whose completion order is the
oracle parameter `order`), and fold every produced result through
`add_result`. -/
def audit_batch (auditor_classes enabled_auditors : List String)
    (run : String → String → AuditResult) (max_workers : ℕ) (order : List ℕ)
    (target_sites : List TargetSite) : BatchAuditResult :=
  let init : BatchAuditResult := { total_sites := target_sites.length }
  let site_lists := target_sites.map
    (fun site => audit_single_site auditor_classes enabled_auditors run site)
  let ordered := if max_workers = 1 then site_lists else completion_reorder order site_lists
  ordered.flatten.foldl BatchAuditResult.add_result init

/-- Results with verdict OK or WARNING, as the spec partitions them. -/
def count_successful (rs : List AuditResult) : ℕ :=
  (rs.filter (fun r =>
    r.status == AuditStatus.OK || r.status == AuditStatus.WARNING)).length

/-- Results with verdict NG or ERROR, as the spec partitions them. -/
def count_failed (rs : List AuditResult) : ℕ :=
  (rs.filter (fun r =>
    r.status == AuditStatus.NG || r.status == AuditStatus.ERROR)).length

lemma is_success_iff (r : AuditResult) :
    r.is_success = (r.status == AuditStatus.OK || r.status == AuditStatus.WARNING) := by
  cases h : r.status <;> simp [AuditResult.is_success, h]

lemma not_success_iff (r : AuditResult) :
    (!r.is_success) = (r.status == AuditStatus.NG || r.status == AuditStatus.ERROR) := by
  cases h : r.status <;> simp [AuditResult.is_success, h]

lemma count_successful_cons (r : AuditResult) (rs : List AuditResult) :
    count_successful (r :: rs)
      = (if r.is_success then 1 else 0) + count_successful rs := by
  by_cases hs : r.is_success
  · have hok : (r.status == AuditStatus.OK || r.status == AuditStatus.WARNING) = true := by
      rw [← is_success_iff]; exact hs
    simp [count_successful, List.filter_cons, hok, hs, Nat.add_comm]
  · have hok : (r.status == AuditStatus.OK || r.status == AuditStatus.WARNING) = false := by
      rw [← is_success_iff]; simpa using hs
    simp [count_successful, List.filter_cons, hok, hs]

lemma count_failed_cons (r : AuditResult) (rs : List AuditResult) :
    count_failed (r :: rs)
      = (if r.is_success then 0 else 1) + count_failed rs := by
  by_cases hs : r.is_success
  · have hng : (r.status == AuditStatus.NG || r.status == AuditStatus.ERROR) = false := by
      rw [← not_success_iff]; simpa using hs
    simp [count_failed, List.filter_cons, hng, hs]
  · have hng : (r.status == AuditStatus.NG || r.status == AuditStatus.ERROR) = true := by
      rw [← not_success_iff]; simpa using hs
    simp [count_failed, List.filter_cons, hng, hs, Nat.add_comm]

lemma count_partition (rs : List AuditResult) :
    count_successful rs + count_failed rs = rs.length := by
  induction rs with
  | nil => simp [count_successful, count_failed]
  | cons r rs ih =>
    rw [count_successful_cons, count_failed_cons, List.length_cons]
    by_cases hs : r.is_success <;> simp [hs] <;> omega

lemma foldl_add_result (rs : List AuditResult) (b : BatchAuditResult) :
    (rs.foldl BatchAuditResult.add_result b).results = b.results ++ rs
    ∧ (rs.foldl BatchAuditResult.add_result b).total_sites = b.total_sites
    ∧ (rs.foldl BatchAuditResult.add_result b).successful_audits
        = b.successful_audits + count_successful rs
    ∧ (rs.foldl BatchAuditResult.add_result b).failed_audits
        = b.failed_audits + count_failed rs := by
  induction rs generalizing b with
  | nil => simp [count_successful, count_failed]
  | cons r rs ih =>
    have ihb := ih (b.add_result r)
    have hfold : (r :: rs).foldl BatchAuditResult.add_result b
        = rs.foldl BatchAuditResult.add_result (b.add_result r) := rfl
    rw [hfold]
    refine ⟨?_, ?_, ?_, ?_⟩
    · rw [ihb.1]
      simp [BatchAuditResult.add_result]
    · rw [ihb.2.1]
      simp [BatchAuditResult.add_result]
    · rw [ihb.2.2.1, count_successful_cons]
      unfold BatchAuditResult.add_result
      by_cases hs : r.is_success <;> (simp [hs]; try omega)
    · rw [ihb.2.2.2, count_failed_cons]
      unfold BatchAuditResult.add_result
      by_cases hs : r.is_success <;> (simp [hs]; try omega)

/-- C4: after any sequence of `add_result` accumulation steps starting from
the freshly created accumulator (as `audit_batch` creates it), the
success/failure counters are exactly the partition of the accumulated results
by verdict: `successful_audits` counts OK/WARNING, `failed_audits` counts
NG/ERROR, and they sum to the number of accumulated results. -/
theorem add_result_counters_partition (rs : List AuditResult) (total : ℕ) :
    (rs.foldl BatchAuditResult.add_result { total_sites := total }).successful_audits
      = count_successful rs
    ∧ (rs.foldl BatchAuditResult.add_result { total_sites := total }).failed_audits
      = count_failed rs
    ∧ (rs.foldl BatchAuditResult.add_result { total_sites := total }).successful_audits
        + (rs.foldl BatchAuditResult.add_result { total_sites := total }).failed_audits
      = (rs.foldl BatchAuditResult.add_result { total_sites := total }).results.length := by
  have h := foldl_add_result rs { total_sites := total }
  refine ⟨by simp [h.2.2.1], by simp [h.2.2.2], ?_⟩
  rw [h.2.2.1, h.2.2.2, h.1]
  simp only [List.nil_append, Nat.zero_add]
  exact count_partition rs

/-- C5: the finalized batch result of `audit_batch` has `total_sites` equal
to the number of submitted targets, for every worker count in `[1, 20]` and
every completion order. -/
theorem audit_batch_total_sites (auditor_classes enabled_auditors : List String)
    (run : String → String → AuditResult) (max_workers : ℕ) (order : List ℕ)
    (target_sites : List TargetSite)
    (_h1 : 1 ≤ max_workers) (_h20 : max_workers ≤ 20) :
    (audit_batch auditor_classes enabled_auditors run max_workers order
        target_sites).total_sites = target_sites.length := by
  unfold audit_batch
  exact (foldl_add_result _ _).2.1

/-- Witness for C5: a two-target batch at worker count 4 with an arbitrary
completion order reports `total_sites = 2`. -/
theorem audit_batch_total_sites_witness :
    (audit_batch ["tls_security"] ["tls_security"]
        (fun name u => { audit_type := name, url := u, status := AuditStatus.OK })
        4 [1, 0] [{ url := "https://a.test" }, { url := "https://b.test" }]).total_sites
      = 2 :=
  audit_batch_total_sites ["tls_security"] ["tls_security"]
    (fun name u => { audit_type := name, url := u, status := AuditStatus.OK })
    4 [1, 0] [{ url := "https://a.test" }, { url := "https://b.test" }]
    (by norm_num) (by norm_num)

lemma filterMap_drop_none {β : Type} (f : String → Option β) (bad : String)
    (hf : f bad = Option.none) (l : List String) :
    (l.filter (fun x => !(x == bad))).filterMap f = l.filterMap f := by
  induction l with
  | nil => simp
  | cons a l ih =>
    by_cases ha : (a == bad) = true
    · have : a = bad := by simpa using ha
      subst this
      simp [ha, hf, ih]
    · simp [List.filter_cons, ha, List.filterMap_cons, ih]

/-- C8: an enabled auditor name missing from the static registry is skipped:
removing it from the enabled list changes neither any per-site result list
nor the finalized batch result, so the batch run continues and every other
enabled probe still runs for every target. -/
theorem unknown_auditor_skipped (auditor_classes enabled_auditors : List String)
    (run : String → String → AuditResult) (max_workers : ℕ) (order : List ℕ)
    (target_sites : List TargetSite) (bad : String)
    (hbad : auditor_classes.contains bad = false) :
    (∀ site, audit_single_site auditor_classes enabled_auditors run site
      = audit_single_site auditor_classes
          (enabled_auditors.filter (fun n => !(n == bad))) run site)
    ∧ audit_batch auditor_classes enabled_auditors run max_workers order target_sites
      = audit_batch auditor_classes (enabled_auditors.filter (fun n => !(n == bad)))
          run max_workers order target_sites := by
  have hsite : ∀ site, audit_single_site auditor_classes enabled_auditors run site
      = audit_single_site auditor_classes
          (enabled_auditors.filter (fun n => !(n == bad))) run site := by
    intro site
    unfold audit_single_site
    have hf : (if auditor_classes.contains bad = true then some (run bad site.url)
        else Option.none) = Option.none := by
      rw [hbad]
      simp
    rw [filterMap_drop_none
      (fun name => if auditor_classes.contains name then some (run name site.url)
        else Option.none)
      bad hf]
  refine ⟨hsite, ?_⟩
  unfold audit_batch
  have : target_sites.map
      (fun site => audit_single_site auditor_classes enabled_auditors run site)
      = target_sites.map (fun site => audit_single_site auditor_classes
          (enabled_auditors.filter (fun n => !(n == bad))) run site) := by
    apply List.map_congr_left
    intro site _
    exact hsite site
  rw [this]

/-- Witness for C8: with registry `{tls_security}` and enabled list
`[tls_security, bogus]`, the unknown name `bogus` contributes nothing. -/
theorem unknown_auditor_skipped_witness :
    (∀ site, audit_single_site ["tls_security"] ["tls_security", "bogus"]
        (fun name u => { audit_type := name, url := u, status := AuditStatus.OK }) site
      = audit_single_site ["tls_security"]
          (["tls_security", "bogus"].filter (fun n => !(n == "bogus")))
          (fun name u => { audit_type := name, url := u, status := AuditStatus.OK }) site)
    ∧ audit_batch ["tls_security"] ["tls_security", "bogus"]
        (fun name u => { audit_type := name, url := u, status := AuditStatus.OK })
        1 [] [{ url := "https://a.test" }]
      = audit_batch ["tls_security"]
          (["tls_security", "bogus"].filter (fun n => !(n == "bogus")))
          (fun name u => { audit_type := name, url := u, status := AuditStatus.OK })
          1 [] [{ url := "https://a.test" }] :=
  unknown_auditor_skipped ["tls_security"] ["tls_security", "bogus"]
    (fun name u => { audit_type := name, url := u, status := AuditStatus.OK })
    1 [] [{ url := "https://a.test" }] "bogus" (by decide)

/-! ## TLS protocol-version prober (`TLSSecurityAuditor._check_tls_versions`) -/

/-- The four probed TLS protocol versions. -/
inductive TLSVer where
  | v1_0
  | v1_1
  | v1_2
  | v1_3
deriving DecidableEq, Repr

/-- Ordering rank of a version. -/
def TLSVer.rank : TLSVer → ℕ
  | .v1_0 => 0
  | .v1_1 => 1
  | .v1_2 => 2
  | .v1_3 => 3

/-- The protocol string `ssl`'s `SSLSocket.version()` reports for each
version (`TLSv1` for TLS 1.0). -/
def TLSVer.pyName : TLSVer → String
  | .v1_0 => "TLSv1"
  | .v1_1 => "TLSv1.1"
  | .v1_2 => "TLSv1.2"
  | .v1_3 => "TLSv1.3"

/-- One handshake attempt as configured by `_check_tls_versions`:
`minimum_version`/`maximum_version` pin the acceptable range, and `relaxed`
records whether the context was built with `check_hostname = False`,
`verify_mode = CERT_NONE` and `set_ciphers('ALL:@SECLEVEL=0')`. -/
structure HandshakeAttempt where
  min_version : TLSVer
  max_version : TLSVer
  relaxed : Bool
deriving DecidableEq, Repr

/-- A successful handshake: the `ssock.cipher()` triple (name, protocol,
bits) and the `ssock.version()` protocol string. -/
structure HandshakeOk where
  cipher : String × String × ℕ
  version : String
deriving DecidableEq, Repr

/-- The network oracle: what `socket.create_connection` +
`context.wrap_socket` produce for a given attempt (an `.error` is a raised
exception with its `str(e)` text). -/
def Net := HandshakeAttempt → Except String HandshakeOk

/-- The per-version entry of the `results` dict built by
`_check_tls_versions` (absent dict keys are `Option.none`). -/
structure VersionProbe where
  supported : Bool
  cipher : Option (String × String × ℕ) := Option.none
  version : Option String := Option.none
  method : Option String := Option.none
  error : Option String := Option.none
  fallback_error : Option String := Option.none
deriving DecidableEq, Repr

/-- The full `results` dict of `_check_tls_versions`, keyed `TLSv1.3`,
`TLSv1.2`, `TLSv1.1`, `TLSv1.0` in the source. -/
structure TLSVersionSupport where
  tls13 : VersionProbe
  tls12 : VersionProbe
  tls11 : VersionProbe
  tls10 : VersionProbe
deriving DecidableEq, Repr

/-- `TLSSecurityAuditor._check_tls_versions`.  TLS 1.3 and TLS 1.2 get a
single strict attempt pinned to the exact version; TLS 1.1 and TLS 1.0 get
the strict attempt and, on failure, a relaxed fallback attempt over the
widened range `[V, V+1]`, counted as supported only when the negotiated
protocol string equals exactly `V`'s. -/
def check_tls_versions (net : Net) : TLSVersionSupport :=
  let r13 :=
    match net ⟨.v1_3, .v1_3, false⟩ with
    | .ok h => { supported := true, cipher := some h.cipher, version := some h.version
                 : VersionProbe }
    | .error e => { supported := false, error := some e }
  let r12 :=
    match net ⟨.v1_2, .v1_2, false⟩ with
    | .ok h => { supported := true, cipher := some h.cipher, version := some h.version
                 : VersionProbe }
    | .error e => { supported := false, error := some e }
  let r11 :=
    match net ⟨.v1_1, .v1_1, false⟩ with
    | .ok h => { supported := true, cipher := some h.cipher, version := some h.version
                 method := some "direct_version_check" : VersionProbe }
    | .error e =>
      match net ⟨.v1_1, .v1_2, true⟩ with
      | .ok h =>
        if h.version = "TLSv1.1" then
          { supported := true, cipher := some h.cipher, version := some h.version
            method := some "legacy_compatibility_check" }
        else
          { supported := false
            error := some ("Server negotiated " ++ h.version ++ " instead of TLSv1.1")
            method := some "legacy_compatibility_check" }
      | .error e2 =>
        { supported := false, error := some e, fallback_error := some e2
          method := some "both_methods_failed" }
  let r10 :=
    match net ⟨.v1_0, .v1_0, false⟩ with
    | .ok h => { supported := true, cipher := some h.cipher, version := some h.version
                 method := some "direct_version_check" : VersionProbe }
    | .error e =>
      match net ⟨.v1_0, .v1_1, true⟩ with
      | .ok h =>
        if h.version = "TLSv1" then
          { supported := true, cipher := some h.cipher, version := some h.version
            method := some "legacy_compatibility_check" }
        else
          { supported := false
            error := some ("Server negotiated " ++ h.version ++ " instead of TLSv1.0")
            method := some "legacy_compatibility_check" }
      | .error e2 =>
        { supported := false, error := some e, fallback_error := some e2
          method := some "both_methods_failed" }
  { tls13 := r13, tls12 := r12, tls11 := r11, tls10 := r10 }

/-- Environment model of a TLS endpoint for the spec's scenarios: the server
accepts exactly the versions in `server_versions` and negotiates the highest
acceptable version inside the client's offered range, with `cipher_of` the
suite it picks per version; no common version raises a handshake error. -/
def negotiate (server_versions : List TLSVer) (a : HandshakeAttempt) : Option TLSVer :=
  (server_versions.filter (fun v =>
      a.min_version.rank ≤ v.rank && v.rank ≤ a.max_version.rank)).foldl
    (fun best v =>
      match best with
      | Option.none => some v
      | some b => if b.rank < v.rank then some v else some b)
    Option.none

/-- The network oracle induced by the server model. -/
def server_net (server_versions : List TLSVer) (cipher_of : TLSVer → String × String × ℕ) :
    Net := fun a =>
  match negotiate server_versions a with
  | some v => .ok ⟨cipher_of v, v.pyName⟩
  | Option.none =>
    .error ("handshake failure: no common protocol in " ++ a.min_version.pyName
      ++ "-" ++ a.max_version.pyName)

/-- A server accepting exactly TLS 1.2 and TLS 1.3 (the spec's scenario),
answering with a modern GCM suite. -/
def server_12_13 : Net :=
  server_net [.v1_2, .v1_3] (fun v => ("ECDHE-RSA-AES128-GCM-SHA256", v.pyName, 128))

/-- Counterexample to C2 as stated: an endpoint whose strict TLS 1.2 pinned
handshake fails but whose widened relaxed `[1.2, 1.3]` handshake negotiates
exactly TLS 1.2.  The claimed fallback would mark 1.2 supported; the code
performs no fallback for 1.2 and marks it unsupported with only the primary
error. -/
def net_c2 : Net := fun a =>
  if a = ⟨.v1_2, .v1_2, false⟩ then .error "strict handshake refused"
  else if a = ⟨.v1_2, .v1_3, true⟩ then
    .ok ⟨("ECDHE-RSA-AES128-GCM-SHA256", "TLSv1.2", 128), "TLSv1.2"⟩
  else .error "other attempt refused"

/-- C2 counterexample: against `net_c2` the strict pinned 1.2 attempt fails
and the widened relaxed `[1.2, 1.3]` attempt would negotiate exactly
`TLSv1.2`, yet the prober reports 1.2 unsupported — refuting the claim that
every probed version gets the fallback retry. -/
theorem tls_fallback_claim_false :
    net_c2 ⟨.v1_2, .v1_2, false⟩ = Except.error "strict handshake refused"
    ∧ net_c2 ⟨.v1_2, .v1_3, true⟩
        = Except.ok ⟨("ECDHE-RSA-AES128-GCM-SHA256", "TLSv1.2", 128), "TLSv1.2"⟩
    ∧ (check_tls_versions net_c2).tls12.supported = false
    ∧ (check_tls_versions net_c2).tls12
        = { supported := false, error := some "strict handshake refused" } := by
  refine ⟨rfl, rfl, rfl, rfl⟩

/-- C2 amended: the two-tier strategy applies only to the legacy versions.
For TLS 1.3 and TLS 1.2 a pinned-handshake failure directly marks the
version unsupported with the primary error.  For TLS 1.1 and TLS 1.0 a
pinned failure triggers the relaxed widened-range `[V, V+1]` retry, which
marks supported=true exactly when the negotiated protocol equals `V`;
a mismatching negotiation marks unsupported with the mismatch text, and a
failing fallback marks unsupported retaining both error texts. -/
theorem tls_fallback_amended (net : Net) :
    (∀ e, net ⟨.v1_3, .v1_3, false⟩ = .error e →
      (check_tls_versions net).tls13 = { supported := false, error := some e })
    ∧ (∀ e, net ⟨.v1_2, .v1_2, false⟩ = .error e →
      (check_tls_versions net).tls12 = { supported := false, error := some e })
    ∧ (∀ e h, net ⟨.v1_1, .v1_1, false⟩ = .error e → net ⟨.v1_1, .v1_2, true⟩ = .ok h →
      h.version = "TLSv1.1" →
      (check_tls_versions net).tls11
        = { supported := true, cipher := some h.cipher, version := some h.version
            method := some "legacy_compatibility_check" })
    ∧ (∀ e h, net ⟨.v1_1, .v1_1, false⟩ = .error e → net ⟨.v1_1, .v1_2, true⟩ = .ok h →
      h.version ≠ "TLSv1.1" →
      (check_tls_versions net).tls11
        = { supported := false
            error := some ("Server negotiated " ++ h.version ++ " instead of TLSv1.1")
            method := some "legacy_compatibility_check" })
    ∧ (∀ e e2, net ⟨.v1_1, .v1_1, false⟩ = .error e → net ⟨.v1_1, .v1_2, true⟩ = .error e2 →
      (check_tls_versions net).tls11
        = { supported := false, error := some e, fallback_error := some e2
            method := some "both_methods_failed" })
    ∧ (∀ e h, net ⟨.v1_0, .v1_0, false⟩ = .error e → net ⟨.v1_0, .v1_1, true⟩ = .ok h →
      h.version = "TLSv1" →
      (check_tls_versions net).tls10
        = { supported := true, cipher := some h.cipher, version := some h.version
            method := some "legacy_compatibility_check" })
    ∧ (∀ e h, net ⟨.v1_0, .v1_0, false⟩ = .error e → net ⟨.v1_0, .v1_1, true⟩ = .ok h →
      h.version ≠ "TLSv1" →
      (check_tls_versions net).tls10
        = { supported := false
            error := some ("Server negotiated " ++ h.version ++ " instead of TLSv1.0")
            method := some "legacy_compatibility_check" })
    ∧ (∀ e e2, net ⟨.v1_0, .v1_0, false⟩ = .error e → net ⟨.v1_0, .v1_1, true⟩ = .error e2 →
      (check_tls_versions net).tls10
        = { supported := false, error := some e, fallback_error := some e2
            method := some "both_methods_failed" }) := by
  refine ⟨?_, ?_, ?_, ?_, ?_, ?_, ?_, ?_⟩
  · intro e he
    simp only [check_tls_versions, he]
  · intro e he
    simp only [check_tls_versions, he]
  · intro e h he hh hv
    simp only [check_tls_versions, he, hh, hv, if_pos]
  · intro e h he hh hv
    simp only [check_tls_versions, he, hh]
    rw [if_neg hv]
  · intro e e2 he he2
    simp only [check_tls_versions, he, he2]
  · intro e h he hh hv
    simp only [check_tls_versions, he, hh, hv, if_pos]
  · intro e h he hh hv
    simp only [check_tls_versions, he, hh]
    rw [if_neg hv]
  · intro e e2 he he2
    simp only [check_tls_versions, he, he2]

/-- Witness for the amended C2 at the concrete endpoint `server_12_13`:
the pinned TLS 1.0 handshake and its widened fallback both fail, and the
prober records both error texts. -/
theorem tls_fallback_amended_witness :
    (check_tls_versions server_12_13).tls10
      = { supported := false
          error := some "handshake failure: no common protocol in TLSv1-TLSv1"
          fallback_error := some "handshake failure: no common protocol in TLSv1-TLSv1.1"
          method := some "both_methods_failed" } :=
  (tls_fallback_amended server_12_13).2.2.2.2.2.2.2
    "handshake failure: no common protocol in TLSv1-TLSv1"
    "handshake failure: no common protocol in TLSv1-TLSv1.1" rfl rfl

/-- C3 counterexample: against the server accepting only TLS 1.2/1.3, the
TLS 1.1 outcome does not retain both error texts — the relaxed fallback
handshake succeeds (negotiating TLS 1.2), so only the mismatch message is
recorded and `fallback_error` stays absent. -/
theorem tls_server_12_13_claim_false :
    (check_tls_versions server_12_13).tls11.supported = false
    ∧ (check_tls_versions server_12_13).tls11.fallback_error = Option.none
    ∧ (check_tls_versions server_12_13).tls11.error
        = some "Server negotiated TLSv1.2 instead of TLSv1.1" := by
  refine ⟨rfl, rfl, rfl⟩

/-- C3 amended: against a server accepting only TLS 1.2 and 1.3, the 1.2 and
1.3 outcomes report supported=true with a non-empty negotiated cipher; the
1.0 outcome reports supported=false with both the primary and the fallback
error text; the 1.1 outcome reports supported=false with only the
negotiated-version-mismatch error, because the widened `[1.1, 1.2]` fallback
handshake succeeds at TLS 1.2. -/
theorem tls_server_12_13_outcomes :
    (check_tls_versions server_12_13).tls13.supported = true
    ∧ (check_tls_versions server_12_13).tls13.cipher
        = some ("ECDHE-RSA-AES128-GCM-SHA256", "TLSv1.3", 128)
    ∧ (check_tls_versions server_12_13).tls12.supported = true
    ∧ (check_tls_versions server_12_13).tls12.cipher
        = some ("ECDHE-RSA-AES128-GCM-SHA256", "TLSv1.2", 128)
    ∧ ((check_tls_versions server_12_13).tls12.cipher.map Prod.fst) ≠ some ""
    ∧ (check_tls_versions server_12_13).tls11
        = { supported := false
            error := some "Server negotiated TLSv1.2 instead of TLSv1.1"
            method := some "legacy_compatibility_check" }
    ∧ (check_tls_versions server_12_13).tls10
        = { supported := false
            error := some "handshake failure: no common protocol in TLSv1-TLSv1"
            fallback_error := some "handshake failure: no common protocol in TLSv1-TLSv1.1"
            method := some "both_methods_failed" } := by
  refine ⟨rfl, rfl, rfl, rfl, by decide, rfl, rfl⟩

/-! ## Compliance mapper (`ComplianceEvaluator` and the CSV row totals) -/

/-- The fixed probe-error detail string (`'診断エラー'`) every evaluator
returns for an absent or errored probe result. -/
def probe_error_detail : PyVal := .str "診断エラー"

/-- `ComplianceEvaluator._evaluate_jquery_version` (rule S1-1). -/
def evaluate_jquery_version (result : Option AuditResult) : ℕ × PyVal :=
  match result with
  | Option.none => (0, probe_error_detail)
  | some r =>
    if r.status = AuditStatus.ERROR then (0, probe_error_detail)
    else
      let jquery_info := (PyVal.dict r.details).getD "jquery" (.dict [])
      let version := jquery_info.getD "version" .none
      if !version.truthy then (1, .str "未")
      else
        let v := version.fstr
        let version_parts := v.splitOn "."
        if version_parts.length ≥ 2 then
          match (version_parts.getD 0 "").toInt?, (version_parts.getD 1 "").toInt?,
            (if version_parts.length > 2 then (version_parts.getD 2 "").toInt?
             else some 0) with
          | some major, some minor, some patch =>
            if major > 3 ∨ (major = 3 ∧ minor > 5) ∨ (major = 3 ∧ minor = 5 ∧ patch ≥ 0)
            then (1, .str v)
            else (0, .str v)
          | _, _, _ => (0, .str (v ++ "（バージョン解析エラー）"))
        else (0, .str v)

/-- `ComplianceEvaluator._evaluate_jquery_35_or_higher` (rule S1-2): like
S1-1 but an unused jQuery scores 0. -/
def evaluate_jquery_35_or_higher (result : Option AuditResult) : ℕ × PyVal :=
  match result with
  | Option.none => (0, probe_error_detail)
  | some r =>
    if r.status = AuditStatus.ERROR then (0, probe_error_detail)
    else
      let jquery_info := (PyVal.dict r.details).getD "jquery" (.dict [])
      let version := jquery_info.getD "version" .none
      if !version.truthy then (0, .str "未使用")
      else
        let v := version.fstr
        let version_parts := v.splitOn "."
        if version_parts.length ≥ 2 then
          match (version_parts.getD 0 "").toInt?, (version_parts.getD 1 "").toInt?,
            (if version_parts.length > 2 then (version_parts.getD 2 "").toInt?
             else some 0) with
          | some major, some minor, some patch =>
            if major > 3 ∨ (major = 3 ∧ minor > 5) ∨ (major = 3 ∧ minor = 5 ∧ patch ≥ 0)
            then (1, .str v)
            else (0, .str v)
          | _, _, _ => (0, .str (v ++ "（バージョン解析エラー）"))
        else (0, .str v)

/-- `ComplianceEvaluator._evaluate_encryption_check` (rule S2). -/
def evaluate_encryption_check (result : Option AuditResult) : ℕ × PyVal :=
  match result with
  | Option.none => (0, probe_error_detail)
  | some r =>
    if r.status = AuditStatus.ERROR then (0, probe_error_detail)
    else
      let http_test := (PyVal.dict r.details).getD "http_access_test" (.dict [])
      let https_redirect := (PyVal.dict r.details).getD "https_redirect_test" (.dict [])
      let http_blocked := (http_test.getD "blocked" (.bool false)).truthy
      let redirects_to_https := (https_redirect.getD "redirects_to_https" (.bool false)).truthy
      if http_blocked || redirects_to_https then (1, .str "HTTPアクセス制限済み")
      else (0, .str "HTTPアクセス可能")

/-- `ComplianceEvaluator._evaluate_tls13_support` (rule S3). -/
def evaluate_tls13_support (result : Option AuditResult) : ℕ × PyVal :=
  match result with
  | Option.none => (0, probe_error_detail)
  | some r =>
    if r.status = AuditStatus.ERROR then (0, probe_error_detail)
    else
      let tls_support := (PyVal.dict r.details).getD "tls_version_support" (.dict [])
      let tls13_info := tls_support.getD "TLSv1.3" (.dict [])
      if (tls13_info.getD "supported" (.bool false)).truthy then
        (1, tls13_info.getD "version" (.str "TLSv1.3"))
      else (0, .str "TLS1.3未サポート")

/-- `ComplianceEvaluator._evaluate_old_tls_disabled` (rule S4). -/
def evaluate_old_tls_disabled (result : Option AuditResult) : ℕ × PyVal :=
  match result with
  | Option.none => (0, probe_error_detail)
  | some r =>
    if r.status = AuditStatus.ERROR then (0, probe_error_detail)
    else
      let tls_support := (PyVal.dict r.details).getD "tls_version_support" (.dict [])
      let tls10_supported :=
        ((tls_support.getD "TLSv1.0" (.dict [])).getD "supported" (.bool false)).truthy
      let tls11_supported :=
        ((tls_support.getD "TLSv1.1" (.dict [])).getD "supported" (.bool false)).truthy
      if !tls10_supported && !tls11_supported then (1, .str "TLS1.1以前無効")
      else
        let enabled_versions :=
          (if tls10_supported then ["TLS1.0"] else [])
            ++ (if tls11_supported then ["TLS1.1"] else [])
        (0, .str ("有効: " ++ String.intercalate ", " enabled_versions))

/-- `ComplianceEvaluator._evaluate_index_of_control` (rule S6-1). -/
def evaluate_index_of_control (result : Option AuditResult) : ℕ × PyVal :=
  match result with
  | Option.none => (0, probe_error_detail)
  | some r =>
    if r.status = AuditStatus.ERROR then (0, probe_error_detail)
    else
      let search_results := (PyVal.dict r.details).getD "keyword_search_results" (.dict [])
      let index_of_result := search_results.getD "index of" (.dict [])
      if index_of_result.truthy then
        let found_count := index_of_result.getD "total_results" (.int 0)
        if found_count.eqInt 0 then (1, .str "index of制御済み")
        else (0, .str ("index of検出(" ++ found_count.fstr ++ "件)"))
      else
        let site_search := (PyVal.dict r.details).getD "site_search" (.dict [])
        let sensitive_findings := (site_search.getD "sensitive_findings" (.list [])).asList
        let index_of_indicators :=
          ["index of", "directory listing", "parent directory", "apache", "nginx"]
        let index_of_found := sensitive_findings.any (fun finding =>
          index_of_indicators.any (fun indicator =>
            py_contains finding.asStr.toLower indicator))
        if !index_of_found then (1, .str "index of制御済み")
        else (0, .str "index of検出")

/-- `ComplianceEvaluator._evaluate_login_control` (rule S6-2). -/
def evaluate_login_control (result : Option AuditResult) : ℕ × PyVal :=
  match result with
  | Option.none => (0, probe_error_detail)
  | some r =>
    if r.status = AuditStatus.ERROR then (0, probe_error_detail)
    else
      let search_results := (PyVal.dict r.details).getD "keyword_search_results" (.dict [])
      let login_result := search_results.getD "login" (.dict [])
      if login_result.truthy then
        let found_count := login_result.getD "total_results" (.int 0)
        if found_count.eqInt 0 then (1, .str "login制御済み")
        else (0, .str ("login検出(" ++ found_count.fstr ++ "件)"))
      else
        let site_search := (PyVal.dict r.details).getD "site_search" (.dict [])
        let sensitive_findings := (site_search.getD "sensitive_findings" (.list [])).asList
        let dangerous_paths := (PyVal.dict r.details).getD "dangerous_paths" (.dict [])
        let accessible_paths := (dangerous_paths.getD "accessible_paths" (.list [])).asList
        let login_accessible := accessible_paths.any (fun path =>
          py_contains (path.getD "path" (.str "")).asStr.toLower "login")
        let login_in_robots := sensitive_findings.any (fun finding =>
          py_contains finding.asStr.toLower "login")
        if !login_accessible && !login_in_robots then (1, .str "login制御済み")
        else
          let issues :=
            (if login_accessible then ["loginページアクセス可能"] else [])
              ++ (if login_in_robots then ["robots.txtでlogin露出"] else [])
          (0, .str (String.intercalate ", " issues))

/-- `ComplianceEvaluator._evaluate_password_control` (rule S6-3). -/
def evaluate_password_control (result : Option AuditResult) : ℕ × PyVal :=
  match result with
  | Option.none => (0, probe_error_detail)
  | some r =>
    if r.status = AuditStatus.ERROR then (0, probe_error_detail)
    else
      let search_results := (PyVal.dict r.details).getD "keyword_search_results" (.dict [])
      let password_result := search_results.getD "password" (.dict [])
      if password_result.truthy then
        let found_count := password_result.getD "total_results" (.int 0)
        if found_count.eqInt 0 then (1, .str "password制御済み")
        else (0, .str ("password検出(" ++ found_count.fstr ++ "件)"))
      else
        let site_search := (PyVal.dict r.details).getD "site_search" (.dict [])
        let sensitive_findings := (site_search.getD "sensitive_findings" (.list [])).asList
        let password_indicators :=
          ["password", ".env", "config.php", "wp-config", "database.sql", "backup"]
        let password_found := sensitive_findings.any (fun finding =>
          password_indicators.any (fun indicator =>
            py_contains finding.asStr.toLower indicator))
        if !password_found then (1, .str "password制御済み")
        else (0, .str "password関連ファイル検出")

/-- `ComplianceEvaluator._evaluate_server_access_control` (rule S7). -/
def evaluate_server_access_control (result : Option AuditResult) : ℕ × PyVal :=
  match result with
  | Option.none => (0, probe_error_detail)
  | some r =>
    if r.status = AuditStatus.ERROR then (0, probe_error_detail)
    else
      let ip_access := (PyVal.dict r.details).getD "ip_access" (.dict [])
      let subdomain_access := (PyVal.dict r.details).getD "subdomain_access" (.dict [])
      let dangerous_paths := (PyVal.dict r.details).getD "dangerous_paths" (.dict [])
      let ip_blocked := (ip_access.getD "blocked" (.bool false)).truthy
      let subdomain_secure := (subdomain_access.getD "secure" (.bool true)).truthy
      let paths_blocked := (dangerous_paths.getD "blocked" (.bool false)).truthy
      if ip_blocked && subdomain_secure && paths_blocked then (1, .str "アクセス制御済み")
      else
        let issues :=
          (if !ip_blocked then ["IP直接アクセス可能"] else [])
            ++ (if !subdomain_secure then ["危険サブドメイン"] else [])
            ++ (if !paths_blocked then ["危険パスアクセス可能"] else [])
        (0, .str (String.intercalate ", " issues))

/-- `ComplianceEvaluator._evaluate_x_frame_options` (rule S8-1). -/
def evaluate_x_frame_options (result : Option AuditResult) : ℕ × PyVal :=
  match result with
  | Option.none => (0, probe_error_detail)
  | some r =>
    if r.status = AuditStatus.ERROR then (0, probe_error_detail)
    else
      let headers := (PyVal.dict r.details).getD "security_headers" (.dict [])
      let xfo_info := headers.getD "X-Frame-Options" (.dict [])
      if (xfo_info.getD "configured" (.bool false)).truthy then
        (1, .str ("設定済み: " ++ (xfo_info.getD "value" (.str "")).fstr))
      else (0, .str "未設定")

/-- `ComplianceEvaluator._evaluate_hsts` (rule S8-2). -/
def evaluate_hsts (result : Option AuditResult) : ℕ × PyVal :=
  match result with
  | Option.none => (0, probe_error_detail)
  | some r =>
    if r.status = AuditStatus.ERROR then (0, probe_error_detail)
    else
      let headers := (PyVal.dict r.details).getD "security_headers" (.dict [])
      let hsts_info := headers.getD "Strict-Transport-Security" (.dict [])
      if (hsts_info.getD "configured" (.bool false)).truthy then
        (1, .str ("設定済み: " ++ (hsts_info.getD "value" (.str "")).fstr))
      else (0, .str "未設定")

/-- `ComplianceEvaluator._evaluate_csp` (rule S8-3). -/
def evaluate_csp (result : Option AuditResult) : ℕ × PyVal :=
  match result with
  | Option.none => (0, probe_error_detail)
  | some r =>
    if r.status = AuditStatus.ERROR then (0, probe_error_detail)
    else
      let headers := (PyVal.dict r.details).getD "security_headers" (.dict [])
      let csp_info := headers.getD "Content-Security-Policy" (.dict [])
      if (csp_info.getD "configured" (.bool false)).truthy then (1, .str "設定済み")
      else (0, .str "未設定")

/-- `result_by_type`: the `result_by_type[result.audit_type] = result` dict
of `_evaluate_single_site` keeps the last result of each audit type. -/
def result_by_type (results : List AuditResult) (t : String) : Option AuditResult :=
  (results.filter (fun r => r.audit_type == t)).getLast?

/-- The per-site evaluation of `ComplianceEvaluator._evaluate_single_site`:
the 1/0 value and the detail payload per rule, in the source's order. -/
structure SiteEvaluation where
  url : String
  evaluations : List (String × ℕ)
  details : List (String × PyVal)
deriving Repr

/-- `ComplianceEvaluator._evaluate_single_site`. -/
def evaluate_single_site (url : String) (results : List AuditResult) : SiteEvaluation :=
  let byType := result_by_type results
  let s11 := evaluate_jquery_version (byType "component_vulnerability")
  let s12 := evaluate_jquery_35_or_higher (byType "component_vulnerability")
  let s2 := evaluate_encryption_check (byType "encryption_check")
  let s3 := evaluate_tls13_support (byType "tls_security")
  let s4 := evaluate_old_tls_disabled (byType "tls_security")
  let s61 := evaluate_index_of_control (byType "access_control")
  let s62 := evaluate_login_control (byType "access_control")
  let s63 := evaluate_password_control (byType "access_control")
  let s7 := evaluate_server_access_control (byType "access_control")
  let s81 := evaluate_x_frame_options (byType "security_headers")
  let s82 := evaluate_hsts (byType "security_headers")
  let s83 := evaluate_csp (byType "security_headers")
  { url := url
    evaluations := [("S1-1", s11.1), ("S1-2", s12.1), ("S2", s2.1), ("S3", s3.1),
      ("S4", s4.1), ("S6-1", s61.1), ("S6-2", s62.1), ("S6-3", s63.1), ("S7", s7.1),
      ("S8-1", s81.1), ("S8-2", s82.1), ("S8-3", s83.1)]
    details := [("S1-1", s11.2), ("S1-2", s12.2), ("S2", s2.2), ("S3", s3.2),
      ("S4", s4.2), ("S6-1", s61.2), ("S6-2", s62.2), ("S6-3", s63.2), ("S7", s7.2),
      ("S8-1", s81.2), ("S8-2", s82.2), ("S8-3", s83.2)] }

/-- The fixed rule checklist, in the source's evaluation order. -/
def rule_ids : List String :=
  ["S1-1", "S1-2", "S2", "S3", "S4", "S6-1", "S6-2", "S6-3", "S7", "S8-1", "S8-2", "S8-3"]

/-- The probe kind each rule reads, per `_evaluate_single_site`'s wiring. -/
def rule_probe : String → String
  | "S1-1" => "component_vulnerability"
  | "S1-2" => "component_vulnerability"
  | "S2" => "encryption_check"
  | "S3" => "tls_security"
  | "S4" => "tls_security"
  | "S6-1" => "access_control"
  | "S6-2" => "access_control"
  | "S6-3" => "access_control"
  | "S7" => "access_control"
  | "S8-1" => "security_headers"
  | "S8-2" => "security_headers"
  | "S8-3" => "security_headers"
  | _ => ""

/-- The probe a rule depends on is absent, or present with verdict ERROR. -/
def probe_errored : Option AuditResult → Prop
  | Option.none => True
  | some r => r.status = AuditStatus.ERROR

lemma evaluate_jquery_version_err (o : Option AuditResult) (h : probe_errored o) :
    evaluate_jquery_version o = (0, probe_error_detail) := by
  cases o with
  | none => rfl
  | some r =>
    have hr : r.status = AuditStatus.ERROR := h
    simp [evaluate_jquery_version, hr]

lemma evaluate_jquery_35_or_higher_err (o : Option AuditResult) (h : probe_errored o) :
    evaluate_jquery_35_or_higher o = (0, probe_error_detail) := by
  cases o with
  | none => rfl
  | some r =>
    have hr : r.status = AuditStatus.ERROR := h
    simp [evaluate_jquery_35_or_higher, hr]

lemma evaluate_encryption_check_err (o : Option AuditResult) (h : probe_errored o) :
    evaluate_encryption_check o = (0, probe_error_detail) := by
  cases o with
  | none => rfl
  | some r =>
    have hr : r.status = AuditStatus.ERROR := h
    simp [evaluate_encryption_check, hr]

lemma evaluate_tls13_support_err (o : Option AuditResult) (h : probe_errored o) :
    evaluate_tls13_support o = (0, probe_error_detail) := by
  cases o with
  | none => rfl
  | some r =>
    have hr : r.status = AuditStatus.ERROR := h
    simp [evaluate_tls13_support, hr]

lemma evaluate_old_tls_disabled_err (o : Option AuditResult) (h : probe_errored o) :
    evaluate_old_tls_disabled o = (0, probe_error_detail) := by
  cases o with
  | none => rfl
  | some r =>
    have hr : r.status = AuditStatus.ERROR := h
    simp [evaluate_old_tls_disabled, hr]

lemma evaluate_index_of_control_err (o : Option AuditResult) (h : probe_errored o) :
    evaluate_index_of_control o = (0, probe_error_detail) := by
  cases o with
  | none => rfl
  | some r =>
    have hr : r.status = AuditStatus.ERROR := h
    simp [evaluate_index_of_control, hr]

lemma evaluate_login_control_err (o : Option AuditResult) (h : probe_errored o) :
    evaluate_login_control o = (0, probe_error_detail) := by
  cases o with
  | none => rfl
  | some r =>
    have hr : r.status = AuditStatus.ERROR := h
    simp [evaluate_login_control, hr]

lemma evaluate_password_control_err (o : Option AuditResult) (h : probe_errored o) :
    evaluate_password_control o = (0, probe_error_detail) := by
  cases o with
  | none => rfl
  | some r =>
    have hr : r.status = AuditStatus.ERROR := h
    simp [evaluate_password_control, hr]

lemma evaluate_server_access_control_err (o : Option AuditResult) (h : probe_errored o) :
    evaluate_server_access_control o = (0, probe_error_detail) := by
  cases o with
  | none => rfl
  | some r =>
    have hr : r.status = AuditStatus.ERROR := h
    simp [evaluate_server_access_control, hr]

lemma evaluate_x_frame_options_err (o : Option AuditResult) (h : probe_errored o) :
    evaluate_x_frame_options o = (0, probe_error_detail) := by
  cases o with
  | none => rfl
  | some r =>
    have hr : r.status = AuditStatus.ERROR := h
    simp [evaluate_x_frame_options, hr]

lemma evaluate_hsts_err (o : Option AuditResult) (h : probe_errored o) :
    evaluate_hsts o = (0, probe_error_detail) := by
  cases o with
  | none => rfl
  | some r =>
    have hr : r.status = AuditStatus.ERROR := h
    simp [evaluate_hsts, hr]

lemma evaluate_csp_err (o : Option AuditResult) (h : probe_errored o) :
    evaluate_csp o = (0, probe_error_detail) := by
  cases o with
  | none => rfl
  | some r =>
    have hr : r.status = AuditStatus.ERROR := h
    simp [evaluate_csp, hr]

/-- C7: for every rule of the fixed checklist, when the probe result the
rule depends on is absent or has verdict ERROR, the rule is unscored: its
value is 0 and its detail is the fixed probe-error string, uniformly for
every rule that depends on that probe. -/
theorem rule_unscored_on_probe_error (url : String) (results : List AuditResult)
    (rule : String) (hrule : rule ∈ rule_ids)
    (herr : probe_errored (result_by_type results (rule_probe rule))) :
    (evaluate_single_site url results).evaluations.lookup rule = some 0
    ∧ (evaluate_single_site url results).details.lookup rule = some probe_error_detail := by
  simp only [rule_ids, List.mem_cons, List.not_mem_nil, or_false] at hrule
  rcases hrule with rfl|rfl|rfl|rfl|rfl|rfl|rfl|rfl|rfl|rfl|rfl|rfl
  · have h := evaluate_jquery_version_err (result_by_type results "component_vulnerability") herr
    refine ⟨?_, ?_⟩
    · show some (evaluate_jquery_version
        (result_by_type results "component_vulnerability")).1 = some 0
      rw [h]
    · show some (evaluate_jquery_version
        (result_by_type results "component_vulnerability")).2 = some probe_error_detail
      rw [h]
  · have h := evaluate_jquery_35_or_higher_err (result_by_type results "component_vulnerability") herr
    refine ⟨?_, ?_⟩
    · show some (evaluate_jquery_35_or_higher
        (result_by_type results "component_vulnerability")).1 = some 0
      rw [h]
    · show some (evaluate_jquery_35_or_higher
        (result_by_type results "component_vulnerability")).2 = some probe_error_detail
      rw [h]
  · have h := evaluate_encryption_check_err (result_by_type results "encryption_check") herr
    refine ⟨?_, ?_⟩
    · show some (evaluate_encryption_check
        (result_by_type results "encryption_check")).1 = some 0
      rw [h]
    · show some (evaluate_encryption_check
        (result_by_type results "encryption_check")).2 = some probe_error_detail
      rw [h]
  · have h := evaluate_tls13_support_err (result_by_type results "tls_security") herr
    refine ⟨?_, ?_⟩
    · show some (evaluate_tls13_support (result_by_type results "tls_security")).1 = some 0
      rw [h]
    · show some (evaluate_tls13_support (result_by_type results "tls_security")).2
        = some probe_error_detail
      rw [h]
  · have h := evaluate_old_tls_disabled_err (result_by_type results "tls_security") herr
    refine ⟨?_, ?_⟩
    · show some (evaluate_old_tls_disabled (result_by_type results "tls_security")).1 = some 0
      rw [h]
    · show some (evaluate_old_tls_disabled (result_by_type results "tls_security")).2
        = some probe_error_detail
      rw [h]
  · have h := evaluate_index_of_control_err (result_by_type results "access_control") herr
    refine ⟨?_, ?_⟩
    · show some (evaluate_index_of_control (result_by_type results "access_control")).1 = some 0
      rw [h]
    · show some (evaluate_index_of_control (result_by_type results "access_control")).2
        = some probe_error_detail
      rw [h]
  · have h := evaluate_login_control_err (result_by_type results "access_control") herr
    refine ⟨?_, ?_⟩
    · show some (evaluate_login_control (result_by_type results "access_control")).1 = some 0
      rw [h]
    · show some (evaluate_login_control (result_by_type results "access_control")).2
        = some probe_error_detail
      rw [h]
  · have h := evaluate_password_control_err (result_by_type results "access_control") herr
    refine ⟨?_, ?_⟩
    · show some (evaluate_password_control (result_by_type results "access_control")).1 = some 0
      rw [h]
    · show some (evaluate_password_control (result_by_type results "access_control")).2
        = some probe_error_detail
      rw [h]
  · have h := evaluate_server_access_control_err (result_by_type results "access_control") herr
    refine ⟨?_, ?_⟩
    · show some (evaluate_server_access_control
        (result_by_type results "access_control")).1 = some 0
      rw [h]
    · show some (evaluate_server_access_control
        (result_by_type results "access_control")).2 = some probe_error_detail
      rw [h]
  · have h := evaluate_x_frame_options_err (result_by_type results "security_headers") herr
    refine ⟨?_, ?_⟩
    · show some (evaluate_x_frame_options
        (result_by_type results "security_headers")).1 = some 0
      rw [h]
    · show some (evaluate_x_frame_options
        (result_by_type results "security_headers")).2 = some probe_error_detail
      rw [h]
  · have h := evaluate_hsts_err (result_by_type results "security_headers") herr
    refine ⟨?_, ?_⟩
    · show some (evaluate_hsts (result_by_type results "security_headers")).1 = some 0
      rw [h]
    · show some (evaluate_hsts (result_by_type results "security_headers")).2
        = some probe_error_detail
      rw [h]
  · have h := evaluate_csp_err (result_by_type results "security_headers") herr
    refine ⟨?_, ?_⟩
    · show some (evaluate_csp (result_by_type results "security_headers")).1 = some 0
      rw [h]
    · show some (evaluate_csp (result_by_type results "security_headers")).2
        = some probe_error_detail
      rw [h]

/-- Witness for C7: with no probe results at all, rule S3 (which depends on
the absent `tls_security` probe) is unscored. -/
theorem rule_unscored_on_probe_error_witness :
    (evaluate_single_site "https://example.test" []).evaluations.lookup "S3" = some 0
    ∧ (evaluate_single_site "https://example.test" []).details.lookup "S3"
        = some probe_error_detail :=
  rule_unscored_on_probe_error "https://example.test" [] "S3" (by decide) trivial

/-- `total_items` of the compliance CSV row
(`len([k for k in evaluations.keys() if k != 'S1-2'])`). -/
def compliance_total_items (ev : List (String × ℕ)) : ℕ :=
  (ev.filter (fun p => !(p.1 == "S1-2"))).length

/-- `passed_items` of the compliance CSV row
(`sum([v for k, v in evaluations.items() if k != 'S1-2'])`). -/
def compliance_passed_items (ev : List (String × ℕ)) : ℕ :=
  ((ev.filter (fun p => !(p.1 == "S1-2"))).map Prod.snd).sum

/-- `合格率` of the compliance CSV row as the underlying ratio
(the source multiplies by 100 and renders `%.1f`, which is presentation). -/
def compliance_pass_rate (ev : List (String × ℕ)) : ℚ :=
  if 0 < compliance_total_items ev then
    (compliance_passed_items ev : ℚ) / (compliance_total_items ev : ℚ)
  else 0

lemma sum_eq_count_one (l : List ℕ) (h : ∀ x ∈ l, x ≤ 1) :
    l.sum = (l.filter (fun v => v == 1)).length := by
  induction l with
  | nil => rfl
  | cons a l ih =>
    have ha : a ≤ 1 := h a (by simp)
    have hl : ∀ x ∈ l, x ≤ 1 := fun x hx => h x (by simp [hx])
    interval_cases a <;> simp [List.filter_cons, ih hl, Nat.add_comm]

lemma evaluate_jquery_version_le_one (o : Option AuditResult) :
    (evaluate_jquery_version o).1 ≤ 1 := by
  cases o <;> simp only [evaluate_jquery_version] <;> (repeat' split) <;> simp

lemma evaluate_jquery_35_or_higher_le_one (o : Option AuditResult) :
    (evaluate_jquery_35_or_higher o).1 ≤ 1 := by
  cases o <;> simp only [evaluate_jquery_35_or_higher] <;> (repeat' split) <;> simp

lemma evaluate_encryption_check_le_one (o : Option AuditResult) :
    (evaluate_encryption_check o).1 ≤ 1 := by
  cases o <;> simp only [evaluate_encryption_check] <;> (repeat' split) <;> simp

lemma evaluate_tls13_support_le_one (o : Option AuditResult) :
    (evaluate_tls13_support o).1 ≤ 1 := by
  cases o <;> simp only [evaluate_tls13_support] <;> (repeat' split) <;> simp

lemma evaluate_old_tls_disabled_le_one (o : Option AuditResult) :
    (evaluate_old_tls_disabled o).1 ≤ 1 := by
  cases o <;> simp only [evaluate_old_tls_disabled] <;> (repeat' split) <;> simp

lemma evaluate_index_of_control_le_one (o : Option AuditResult) :
    (evaluate_index_of_control o).1 ≤ 1 := by
  cases o <;> simp only [evaluate_index_of_control] <;> (repeat' split) <;> simp

lemma evaluate_login_control_le_one (o : Option AuditResult) :
    (evaluate_login_control o).1 ≤ 1 := by
  cases o <;> simp only [evaluate_login_control] <;> (repeat' split) <;> simp

lemma evaluate_password_control_le_one (o : Option AuditResult) :
    (evaluate_password_control o).1 ≤ 1 := by
  cases o <;> simp only [evaluate_password_control] <;> (repeat' split) <;> simp

lemma evaluate_server_access_control_le_one (o : Option AuditResult) :
    (evaluate_server_access_control o).1 ≤ 1 := by
  cases o <;> simp only [evaluate_server_access_control] <;> (repeat' split) <;> simp

lemma evaluate_x_frame_options_le_one (o : Option AuditResult) :
    (evaluate_x_frame_options o).1 ≤ 1 := by
  cases o <;> simp only [evaluate_x_frame_options] <;> (repeat' split) <;> simp

lemma evaluate_hsts_le_one (o : Option AuditResult) :
    (evaluate_hsts o).1 ≤ 1 := by
  cases o <;> simp only [evaluate_hsts] <;> (repeat' split) <;> simp

lemma evaluate_csp_le_one (o : Option AuditResult) :
    (evaluate_csp o).1 ≤ 1 := by
  cases o <;> simp only [evaluate_csp] <;> (repeat' split) <;> simp

/-- C9: the per-target pass-rate totals exclude exactly the manual-judgment
rule S1-2 from numerator and denominator: `total_items` is the 11 scorable
rules (every rule of the fixed checklist other than S1-2 is counted),
`passed_items` is the number of scorable rules with value 1, and the pass
rate is `passed_items / total_items`. -/
theorem pass_rate_excludes_s12 (url : String) (results : List AuditResult) :
    compliance_total_items (evaluate_single_site url results).evaluations = 11
    ∧ (evaluate_single_site url results).evaluations.map Prod.fst = rule_ids
    ∧ compliance_passed_items (evaluate_single_site url results).evaluations
        = ((((evaluate_single_site url results).evaluations.filter
            (fun p => !(p.1 == "S1-2"))).map Prod.snd).filter (fun v => v == 1)).length
    ∧ compliance_pass_rate (evaluate_single_site url results).evaluations
        = (compliance_passed_items (evaluate_single_site url results).evaluations : ℚ) / 11 := by
  refine ⟨rfl, rfl, ?_, ?_⟩
  · refine sum_eq_count_one _ ?_
    intro x hx
    have hx' : x ∈
        [(evaluate_jquery_version (result_by_type results "component_vulnerability")).1,
         (evaluate_encryption_check (result_by_type results "encryption_check")).1,
         (evaluate_tls13_support (result_by_type results "tls_security")).1,
         (evaluate_old_tls_disabled (result_by_type results "tls_security")).1,
         (evaluate_index_of_control (result_by_type results "access_control")).1,
         (evaluate_login_control (result_by_type results "access_control")).1,
         (evaluate_password_control (result_by_type results "access_control")).1,
         (evaluate_server_access_control (result_by_type results "access_control")).1,
         (evaluate_x_frame_options (result_by_type results "security_headers")).1,
         (evaluate_hsts (result_by_type results "security_headers")).1,
         (evaluate_csp (result_by_type results "security_headers")).1] := hx
    simp only [List.mem_cons, List.not_mem_nil, or_false] at hx'
    rcases hx' with rfl|rfl|rfl|rfl|rfl|rfl|rfl|rfl|rfl|rfl|rfl
    · exact evaluate_jquery_version_le_one _
    · exact evaluate_encryption_check_le_one _
    · exact evaluate_tls13_support_le_one _
    · exact evaluate_old_tls_disabled_le_one _
    · exact evaluate_index_of_control_le_one _
    · exact evaluate_login_control_le_one _
    · exact evaluate_password_control_le_one _
    · exact evaluate_server_access_control_le_one _
    · exact evaluate_x_frame_options_le_one _
    · exact evaluate_hsts_le_one _
    · exact evaluate_csp_le_one _
  · have h11 : compliance_total_items (evaluate_single_site url results).evaluations = 11 := rfl
    unfold compliance_pass_rate
    rw [h11]
    norm_num

end WebAudit
